import Mathlib

/-!
Shallow embedding of the Safe-Ph event-aggregation engine.

The embedded code comes from:
* `src/app/api/earthquakes/route.ts` (two revisions in the file: the PHIVOLCS
  subprocess adapter and the USGS per-year remote adapter),
* `src/unnamed/part_000` (the NASA EONET volcanic-activity route).

JavaScript runtime primitives (`JSON.parse`, `parseInt`, truthiness,
`Array.prototype.sort`, `Date` parsing) are modelled explicitly below;
`Date` parsing itself is kept as a function parameter `String → Option Int`
(`none` models an invalid date, i.e. `getTime()` returning `NaN`).
-/

namespace SafePh

/-! ### A model of JSON values and of `JSON.parse`

`JSON.parse` is modelled by a recursive-descent parser over the character
list, with a fuel argument for termination; `jsParse` supplies fuel
`4 * length + 16`, which dominates the number of parsing steps (each step
either consumes a character or immediately fails). Numbers keep their raw
lexeme: the routes never do arithmetic on parsed numbers. -/

inductive Json where
  | jnull
  | jbool (b : Bool)
  | jnum (lexeme : String)
  | jstr (s : String)
  | jarr (items : List Json)
  | jobj (fields : List (String × Json))

def lbrace : Char := Char.ofNat 123
def rbrace : Char := Char.ofNat 125

def jsWs (c : Char) : Bool := c = ' ' || c = '\t' || c = '\n' || c = '\r'

def skipWs (cs : List Char) : List Char := cs.dropWhile jsWs

def hexVal (c : Char) : Option Nat :=
  if '0' ≤ c ∧ c ≤ '9' then some (c.toNat - 48)
  else if 'a' ≤ c ∧ c ≤ 'f' then some (c.toNat - 87)
  else if 'A' ≤ c ∧ c ≤ 'F' then some (c.toNat - 55)
  else none

def parseHex4 (cs : List Char) : Option (Nat × List Char) :=
  match cs with
  | c1 :: c2 :: c3 :: c4 :: rest =>
    match hexVal c1, hexVal c2, hexVal c3, hexVal c4 with
    | some h1, some h2, some h3, some h4 =>
        some (((h1 * 16 + h2) * 16 + h3) * 16 + h4, rest)
    | _, _, _, _ => none
  | _ => none

/-- Body of a JSON string literal, after the opening quote.  Rejects raw
control characters and unknown escapes, as `JSON.parse` does. -/
def parseStringBody (fuel : Nat) (cs : List Char) (acc : List Char) :
    Option (String × List Char) :=
  match fuel, cs with
  | 0, _ => none
  | _, [] => none
  | fuel + 1, c :: rest =>
    if c = '"' then some (String.mk acc.reverse, rest)
    else if c = '\\' then
      match rest with
      | [] => none
      | e :: rest' =>
        if e = '"' then parseStringBody fuel rest' ('"' :: acc)
        else if e = '\\' then parseStringBody fuel rest' ('\\' :: acc)
        else if e = '/' then parseStringBody fuel rest' ('/' :: acc)
        else if e = 'b' then parseStringBody fuel rest' (Char.ofNat 8 :: acc)
        else if e = 'f' then parseStringBody fuel rest' (Char.ofNat 12 :: acc)
        else if e = 'n' then parseStringBody fuel rest' ('\n' :: acc)
        else if e = 'r' then parseStringBody fuel rest' (Char.ofNat 13 :: acc)
        else if e = 't' then parseStringBody fuel rest' ('\t' :: acc)
        else if e = 'u' then
          match parseHex4 rest' with
          | some (code, rest'') => parseStringBody fuel rest'' (Char.ofNat code :: acc)
          | none => none
        else none
    else if c.toNat < 32 then none
    else parseStringBody fuel rest (c :: acc)

def isDigitChar (c : Char) : Bool := '0' ≤ c && c ≤ '9'

/-- The integer/fraction/exponent lexeme of a JSON number, per the JSON
grammar (no leading zeros, at least one digit in each part). -/
def parseNumberLex (cs : List Char) : Option (String × List Char) :=
  let (sign, cs1) :=
    match cs with
    | '-' :: rest => ([('-' : Char)], rest)
    | _ => ([], cs)
  let intPart := cs1.takeWhile isDigitChar
  let cs2 := cs1.dropWhile isDigitChar
  match intPart with
  | [] => none
  | d :: ds =>
    if d = '0' ∧ ds ≠ [] then none
    else
      let (fracPart, cs3) :=
        match cs2 with
        | '.' :: rest =>
          let fs := rest.takeWhile isDigitChar
          (if fs = [] then none else some ('.' :: fs), rest.dropWhile isDigitChar)
        | _ => (some [], cs2)
      match fracPart with
      | none => none
      | some fp =>
        let (expPart, cs4) :=
          match cs3 with
          | e :: rest =>
            if e = 'e' ∨ e = 'E' then
              let (esign, rest1) :=
                match rest with
                | '+' :: r => ([('+' : Char)], r)
                | '-' :: r => ([('-' : Char)], r)
                | _ => ([], rest)
              let es := rest1.takeWhile isDigitChar
              (if es = [] then none else some (e :: (esign ++ es)),
               rest1.dropWhile isDigitChar)
            else (some [], cs3)
          | [] => (some [], cs3)
        match expPart with
        | none => none
        | some ep => some (String.mk (sign ++ intPart ++ fp ++ ep), cs4)

def expectLit (cs : List Char) (lit : List Char) : Option (List Char) :=
  if cs.take lit.length = lit then some (cs.drop lit.length) else none

mutual

def parseVal : Nat → List Char → Option (Json × List Char)
  | 0, _ => none
  | fuel + 1, cs =>
    match skipWs cs with
    | [] => none
    | c :: rest =>
      if c = '"' then
        (parseStringBody (fuel + 1) rest []).map (fun p => (Json.jstr p.1, p.2))
      else if c = lbrace then
        match skipWs rest with
        | c' :: rest' =>
          if c' = rbrace then some (Json.jobj [], rest')
          else parseObjFields fuel (skipWs rest) []
        | [] => none
      else if c = '[' then
        match skipWs rest with
        | ']' :: rest' => some (Json.jarr [], rest')
        | _ => parseArrItems fuel (skipWs rest) []
      else if c = 't' then
        (expectLit (c :: rest) ['t', 'r', 'u', 'e']).map (fun r => (Json.jbool true, r))
      else if c = 'f' then
        (expectLit (c :: rest) ['f', 'a', 'l', 's', 'e']).map (fun r => (Json.jbool false, r))
      else if c = 'n' then
        (expectLit (c :: rest) ['n', 'u', 'l', 'l']).map (fun r => (Json.jnull, r))
      else
        (parseNumberLex (c :: rest)).map (fun p => (Json.jnum p.1, p.2))

def parseArrItems : Nat → List Char → List Json → Option (Json × List Char)
  | 0, _, _ => none
  | fuel + 1, cs, acc =>
    match parseVal fuel cs with
    | none => none
    | some (v, rest) =>
      match skipWs rest with
      | ',' :: rest' => parseArrItems fuel rest' (v :: acc)
      | ']' :: rest' => some (Json.jarr (v :: acc).reverse, rest')
      | _ => none

def parseObjFields : Nat → List Char → List (String × Json) →
    Option (Json × List Char)
  | 0, _, _ => none
  | fuel + 1, cs, acc =>
    match cs with
    | '"' :: rest =>
      match parseStringBody fuel rest [] with
      | none => none
      | some (key, rest1) =>
        match skipWs rest1 with
        | ':' :: rest2 =>
          match parseVal fuel rest2 with
          | none => none
          | some (v, rest3) =>
            match skipWs rest3 with
            | ',' :: rest4 => parseObjFields fuel (skipWs rest4) ((key, v) :: acc)
            | c' :: rest4 =>
              if c' = rbrace then some (Json.jobj ((key, v) :: acc).reverse, rest4)
              else none
            | [] => none
        | _ => none
    | _ => none

end

/-- Model of `JSON.parse`: parse one value, then require only trailing
whitespace.  `none` models a thrown `SyntaxError` (in particular on the
empty string). -/
def jsParse (s : String) : Option Json :=
  match parseVal (4 * s.length + 16) s.data with
  | some (j, rest) => if skipWs rest = [] then some j else none
  | none => none

/-! ### JavaScript runtime semantics used by the routes -/

/-- Result of a JS member access `x.k`. -/
inductive FieldAccess where
  | undefinedField
  | val (j : Json)
  | npe

/-- Last binding of a key in a field list (`JSON.parse` keeps the last of
duplicate keys, so parsed objects already behave this way under a
left-fold lookup). -/
def lastAssoc (fields : List (String × Json)) (k : String) : Option Json :=
  fields.foldl (fun acc p => if p.1 = k then some p.2 else acc) none

/-- Member access `x.k`: `TypeError` on `null`, the bound value on objects,
`undefined` otherwise (primitives autobox to objects without such fields). -/
def jsField : Json → String → FieldAccess
  | .jnull, _ => .npe
  | .jobj fields, k =>
    match lastAssoc fields k with
    | some v => .val v
    | none => .undefinedField
  | _, _ => .undefinedField

/-- Whether the mantissa of a JSON number lexeme is zero (`0`, `-0`, `0.00`,
`0e9`, ... are all falsy in JS). -/
def numLexIsZero (s : String) : Bool :=
  (s.data.takeWhile (fun c => c ≠ 'e' ∧ c ≠ 'E')).all
    (fun c => c = '0' || c = '-' || c = '.')

/-- JS truthiness of a JSON value. -/
def jsTruthy : Json → Bool
  | .jnull => false
  | .jbool b => b
  | .jnum lex => !numLexIsZero lex
  | .jstr s => s ≠ ""
  | .jarr _ => true
  | .jobj _ => true

/-- `String(x)` coercion, used when a non-string lands in `new Error(x)`.
Exact for strings, booleans and `null` (the only cases the theorems below
ever inspect are strings); approximate for compound values. -/
def jsStringOf : Json → String
  | .jstr s => s
  | .jnum lex => lex
  | .jbool true => "true"
  | .jbool false => "false"
  | .jnull => "null"
  | .jarr _ => ""
  | .jobj _ => "[object Object]"

def digitsToNat (ds : List Char) : Nat :=
  ds.foldl (fun a c => a * 10 + (c.toNat - 48)) 0

/-- Model of `parseInt(s, 10)`: skip leading whitespace, optional sign,
then the longest digit prefix; `none` models `NaN` (no digits). Trailing
garbage is ignored, exactly as in JS. -/
def jsParseInt (s : String) : Option Int :=
  let cs := s.data.dropWhile jsWs
  match cs with
  | '-' :: rest =>
    match rest.takeWhile isDigitChar with
    | [] => none
    | ds => some (-(digitsToNat ds : Int))
  | '+' :: rest =>
    match rest.takeWhile isDigitChar with
    | [] => none
    | ds => some (digitsToNat ds : Int)
  | _ =>
    match cs.takeWhile isDigitChar with
    | [] => none
    | ds => some (digitsToNat ds : Int)

/-- `p || d` for a query-string value: `searchParams.get` yields `null`
when absent, and the empty string is falsy. -/
def jsOrDefault (p : Option String) (d : String) : String :=
  match p with
  | none => d
  | some s => if s = "" then d else s

/-- JS truthiness of `null`-or-number, with `NaN` collapsed into `none`
(`null` and `NaN` are both falsy and neither ever reaches a command). -/
def jsTruthyInt : Option Int → Bool
  | none => false
  | some n => n != 0

/-! ### Earthquake route (`src/app/api/earthquakes/route.ts`, PHIVOLCS
subprocess revision): window selection and dispatch -/

/-- Lines 17-20: `Math.min(parseInt(searchParams.get('years') || '1', 10), 10)`.
`none` models `NaN` (`Math.min(NaN, 10)` is `NaN`). -/
def effectiveYears (yearsP : Option String) : Option Int :=
  (jsParseInt (jsOrDefault yearsP "1")).map (fun n => min n 10)

/-- Lines 23-24: `monthParam ? parseInt(monthParam, 10) : null` (and the
same for `year`); `none` covers both `null` and `NaN`. -/
def parsedParam (p : Option String) : Option Int :=
  match p with
  | none => none
  | some s => if s = "" then none else jsParseInt s

/-- Lines 106-109: positional arguments of the local subprocess command.
The default is the trailing-range form `[yearsToFetch]`; when both targets
are truthy it is replaced by the single-month form `[1, month, year]`. -/
def localCmdArgs (effYears tm ty : Option Int) : List (Option Int) :=
  if jsTruthyInt tm && jsTruthyInt ty then [some 1, tm, ty] else [effYears]

/-- Lines 47-50: the query sent to the sibling serverless function.
`years` is always set; `month`/`year` only when truthy. -/
structure RemoteQuery where
  years : Option Int
  month : Option Int
  year : Option Int
deriving DecidableEq

def remoteQuery (effYears tm ty : Option Int) : RemoteQuery :=
  { years := effYears
    month := if jsTruthyInt tm then tm else none
    year := if jsTruthyInt ty then ty else none }

/-- The time slice a regional-catalog invocation asks for. -/
inductive Slice where
  | range (years : Option Int)
  | singleMonth (month year : Option Int)
deriving DecidableEq

/-- Modelled from the spec: the regional catalog script
`scripts/fetch_earthquakes.py` is not under `src/`; per §6 its positional
arguments are `yearsToFetch` for a trailing range or `1 month year` for a
single-month slice. -/
def scriptSlice : List (Option Int) → Option Slice
  | [ys] => some (.range ys)
  | [_, m, y] => some (.singleMonth m y)
  | _ => none

/-- Modelled from the spec: the sibling serverless function
`api/fetch-earthquakes` is not under `src/`; per §4.3 it performs the same
window logic as the script, so a query carrying both `month` and `year`
is served as exactly that single-month slice, otherwise as the trailing
`years` range. -/
def siblingSlice (q : RemoteQuery) : Slice :=
  match q.month, q.year with
  | some m, some y => .singleMonth (some m) (some y)
  | _, _ => .range q.years

/-- The whole local dispatch from raw query parameters to command args. -/
def routeLocalCmd (monthP yearP yearsP : Option String) : List (Option Int) :=
  localCmdArgs (effectiveYears yearsP) (parsedParam monthP) (parsedParam yearP)

/-- The whole remote dispatch from raw query parameters to the delegate query. -/
def routeRemoteQuery (monthP yearP yearsP : Option String) : RemoteQuery :=
  remoteQuery (effectiveYears yearsP) (parsedParam monthP) (parsedParam yearP)

/-! ### The shared merge/sort stage

`Array.prototype.sort` with comparator `c` is, by the ECMAScript spec, a
stable sort consistent with `c`; when the comparator evaluates to `NaN`
(an unparseable date on either side) `SortCompare` coerces it to `+0`.
A stable sort consistent with a total comparator is extensionally unique,
so `List.mergeSort` with `le a b ↔ c(a,b) ≤ 0` is its exact model.  All
three routes sort with comparator
`new Date(b.<date>).getTime() - new Date(a.<date>).getTime()`. -/

/-- `c(a,b) = tb - ta ≤ 0` on parsed times, `+0` (kept in place) when either
side is `NaN`. -/
def jsTimeLe (ka kb : Option Int) : Bool :=
  match ka, kb with
  | some ta, some tb => tb ≤ ta
  | _, _ => true

/-- Most-recent-first stable sort keyed by a (possibly `NaN`) timestamp. -/
def sortByTimeDesc (key : α → Option Int) (l : List α) : List α :=
  l.mergeSort (fun a b => jsTimeLe (key a) (key b))

/-! ### Earthquake route, envelope processing (lines 121-175)

The route is modelled from its input boundary: the captured subprocess
stdout (an arbitrary string) and the JS date semantics
`dpJ : Json → Option Int`, standing for `x => new Date(x).getTime()` with
`none` for `NaN`.  Every `throw` lands in the outer `catch`, which
produces the 500 envelope with `String(err)` in the body. -/

structure RouteResponse where
  status : Nat
  body : Json

def quakesErrorBody (msg : String) : Json :=
  .jobj [("quakes", .jarr []), ("error", .jstr msg)]

/-- Lines 168-174: the `catch` branch. -/
def failResp (msg : String) : RouteResponse := ⟨500, quakesErrorBody msg⟩

def msgParseFailure : String :=
  "Error: Failed to parse earthquake data from Python script"
def msgNullResult : String :=
  "TypeError: Cannot read properties of null (reading error)"
def msgFilterNotFunction : String :=
  "TypeError: allQuakes.filter is not a function"
def msgNullQuake : String :=
  "TypeError: Cannot read properties of null (reading datetime)"

/-- One step of the validation filter (lines 137-145) on a raw array
element; `none` models the `TypeError` thrown by `quake.datetime` when the
element is `null` (that access sits outside the callback's `try`). -/
def keepRaw (dpJ : Json → Option Int) (q : Json) : Option Bool :=
  match jsField q "datetime" with
  | .npe => none
  | .undefinedField => some false
  | .val d => if jsTruthy d then some (dpJ d).isSome else some false

/-- `Array.prototype.filter` with a callback that can throw: elements are
visited left to right and the first throw aborts the whole call. -/
def filterRaw (dpJ : Json → Option Int) : List Json → Option (List Json)
  | [] => some []
  | q :: qs =>
    match keepRaw dpJ q with
    | none => none
    | some true => (filterRaw dpJ qs).map (q :: ·)
    | some false => filterRaw dpJ qs

/-- Sort key of a raw quake record: `new Date(q.datetime).getTime()`.  The
comparator's own `try/catch` maps a throw to `0`, which coincides with the
`NaN` branch of `jsTimeLe`. -/
def rawKey (dpJ : Json → Option Int) (q : Json) : Option Int :=
  match jsField q "datetime" with
  | .val d => dpJ d
  | _ => none

/-- Lines 147-167: sort the validated records and serialize the success
envelope. -/
def finishQuakes (dpJ : Json → Option Int) (kept : List Json) : RouteResponse :=
  ⟨200, .jobj [("quakes", .jarr (sortByTimeDesc (rawKey dpJ) kept))]⟩

/-- Lines 134-167: `result.quakes || []`, validation filter, sort, respond. -/
def processQuakes (dpJ : Json → Option Int) (result : Json) : RouteResponse :=
  match jsField result "quakes" with
  | .npe => failResp msgNullResult
  | .undefinedField => finishQuakes dpJ []
  | .val v =>
    if jsTruthy v then
      match v with
      | .jarr items =>
        match filterRaw dpJ items with
        | none => failResp msgNullQuake
        | some kept => finishQuakes dpJ kept
      | _ => failResp msgFilterNotFunction
    else finishQuakes dpJ []

/-- Lines 129-132 then 134-167: `if (result.error) throw new Error(result.error)`.
`String(new Error(m))` is `"Error: " ++ m`. -/
def processEnvelope (dpJ : Json → Option Int) (result : Json) : RouteResponse :=
  match jsField result "error" with
  | .npe => failResp msgNullResult
  | .undefinedField => processQuakes dpJ result
  | .val e =>
    if jsTruthy e then failResp ("Error: " ++ jsStringOf e)
    else processQuakes dpJ result

/-- Lines 121-175, local strategy: parse the captured stdout strictly as
JSON (a parse failure throws the tool-failure error), then process the
envelope. -/
def earthquakeRouteLocal (dpJ : Json → Option Int) (stdout : String) :
    RouteResponse :=
  match jsParse stdout with
  | none => failResp msgParseFailure
  | some result => processEnvelope dpJ result

/-! ### Typed quake records and the Normalizer/Validator

The `Quake` type declared at the top of `route.ts`.  The validation filter
(lines 137-145) is a per-record predicate on such records: `!quake.datetime`
rejects an empty/missing datetime, then `isNaN(new Date(...).getTime())`
rejects an unparseable one.  The date semantics are a parameter
`dp : String → Option Int` (`none` = `NaN`). -/

structure Quake where
  datetime : String
  lat : Rat
  lon : Rat
  location : String
  source : Option String
  magnitude : Option Rat
  depth : Option Rat
deriving DecidableEq

def keepQuake (dp : String → Option Int) (q : Quake) : Bool :=
  if q.datetime = "" then false else (dp q.datetime).isSome

/-- Lines 137-145: `allQuakes.filter(...)`. -/
def validateQuakes (dp : String → Option Int) (l : List Quake) : List Quake :=
  l.filter (keepQuake dp)

/-! ### Remote seismic catalog adapter (`route.ts`, USGS revision,
lines 186-269): per-year fetch with partial-failure tolerance -/

/-- `s || d` on an optional string field (`""` is falsy). -/
def jsStrOr (v : Option String) (d : String) : String :=
  match v with
  | none => d
  | some s => if s = "" then d else s

/-- One GeoJSON feature as the mapping (lines 225-238) reads it:
`props.time` is a JS number whose `new Date(...)` may be invalid (`none`),
`coordinates` is the `[lon, lat, depth]` triple. -/
structure UsgsFeature where
  time : Option Int
  place : Option String
  mag : Option Rat
  url : Option String
  lon : Rat
  lat : Rat
  depth : Rat
deriving DecidableEq

/-- Lines 229-237, as a function of the ISO-formatting semantics
`iso : Int → String` (`Date.prototype.toISOString`); `none` models the
`RangeError` it throws on an invalid date, which aborts the enclosing
per-year `try`. -/
def mapFeature (iso : Int → String) (f : UsgsFeature) : Option Quake :=
  match f.time with
  | none => none
  | some t =>
    some
      { datetime := iso t
        lat := f.lat
        lon := f.lon
        location := jsStrOr f.place "Unknown location"
        magnitude := f.mag
        depth := some f.depth
        source := some (jsStrOr f.url "https://earthquake.usgs.gov/") }

/-- `(data.features || []).map(...)`: the whole map throws if any element
does. -/
def mapYearFeatures (iso : Int → String) (fs : List UsgsFeature) :
    Option (List Quake) :=
  fs.mapM (mapFeature iso)

/-- Outcome of one calendar year's fetch, at the network boundary:
the request (or `res.json()`) threw, the response was non-OK, or a decoded
feature list (`none` for a missing `features` field). -/
inductive YearFetch where
  | threw
  | notOk (status : Nat)
  | ok (features : Option (List UsgsFeature))
deriving DecidableEq

/-- What one iteration of the loop (lines 204-245) contributes: `none`
means the year is skipped — `continue` on a non-OK status, or the `catch`
swallowing a throw from `fetch`, `res.json()` or the feature mapping. -/
def yearQuakes (iso : Int → String) : YearFetch → Option (List Quake)
  | .threw => none
  | .notOk _ => none
  | .ok fs => mapYearFeatures iso (fs.getD [])

/-- Lines 202-245: `allQuakes.push(...yearQuakes)` across the year loop;
failed years contribute nothing. -/
def fetchAllYears (iso : Int → String) (years : List YearFetch) : List Quake :=
  years.foldl
    (fun acc y =>
      match yearQuakes iso y with
      | some qs => acc ++ qs
      | none => acc)
    []

def quakeJson (q : Quake) : Json :=
  .jobj
    [("datetime", .jstr q.datetime),
     ("lat", .jnum (toString q.lat)),
     ("lon", .jnum (toString q.lon)),
     ("location", .jstr q.location),
     ("magnitude", match q.magnitude with | some m => .jnum (toString m) | none => .jnull),
     ("depth", match q.depth with | some d => .jnum (toString d) | none => .jnull),
     ("source", match q.source with | some s => .jstr s | none => .jnull)]

/-- Lines 186-269: the USGS route as a whole.  Nothing after the loop can
throw, so it always answers 200 with the aggregated, sorted list. -/
def usgsRoute (dp : String → Option Int) (iso : Int → String)
    (years : List YearFetch) : RouteResponse :=
  ⟨200,
   .jobj
     [("quakes",
       .jarr
         ((sortByTimeDesc (fun q => dp q.datetime) (fetchAllYears iso years)).map
           quakeJson))]⟩

/-! ### Volcanic-activity route (`src/unnamed/part_000`) -/

/-- `v || null` on an optional string field (`""` is falsy, so it also
collapses to `null`). -/
def jsStrOrNull (v : Option String) : Option String :=
  match v with
  | none => none
  | some s => if s = "" then none else some s

/-- `v || null` on an optional numeric field (`0` is falsy). -/
def jsNumOrNull (v : Option Rat) : Option Rat :=
  match v with
  | none => none
  | some q => if q = 0 then none else some q

structure EonetCategory where
  id : String
  title : String
deriving DecidableEq

structure EonetCatalogRef where
  id : String
  url : String
deriving DecidableEq

/-- One geometry observation of an upstream EONET event
(`geometry.coordinates` is `[lon, lat]`). -/
structure EonetGeometry where
  lon : Rat
  lat : Rat
  date : String
  magnitudeValue : Option Rat
  magnitudeUnit : Option String
deriving DecidableEq

/-- One upstream EONET event as the fan-out loop reads it; a missing/empty
`title` or `link` is modelled by `""`. -/
structure EonetEvent where
  id : String
  title : String
  description : Option String
  link : String
  closed : Option String
  categories : List EonetCategory
  sources : List EonetCatalogRef
  geometryList : List EonetGeometry
deriving DecidableEq

/-- The `Volcano` record type declared at the top of the route. -/
structure Volcano where
  id : String
  title : String
  description : Option String
  link : String
  lat : Rat
  lon : Rat
  date : String
  closed : Option String
  categories : List EonetCategory
  sources : List EonetCatalogRef
  magnitudeValue : Option Rat
  magnitudeUnit : Option String
deriving DecidableEq

/-- Lines 25-28: the Philippines bounding box. -/
def minLat : Rat := 4.5
def maxLat : Rat := 21.5
def minLon : Rat := 116
def maxLon : Rat := 127

/-- Line 69: `lat >= minLat && lat <= maxLat && lon >= minLon && lon <= maxLon`. -/
def inPhilippines (lat lon : Rat) : Bool :=
  decide (minLat ≤ lat) && decide (lat ≤ maxLat) &&
  decide (minLon ≤ lon) && decide (lon ≤ maxLon)

/-- Lines 70-83: the record pushed for one in-region geometry observation. -/
def mkActivity (event : EonetEvent) (geometry : EonetGeometry) : Volcano :=
  { id := event.id ++ "_" ++ geometry.date
    title := jsStrOr (some event.title) "Unknown Volcano"
    description := jsStrOrNull event.description
    link := event.link
    lat := geometry.lat
    lon := geometry.lon
    date := geometry.date
    closed := jsStrOrNull event.closed
    categories := event.categories
    sources := event.sources
    magnitudeValue := jsNumOrNull geometry.magnitudeValue
    magnitudeUnit := jsStrOrNull geometry.magnitudeUnit }

/-- Lines 58-86: the geometry fan-out for one upstream event — an early
return on an empty geometry list, then one pushed activity per observation
that lies inside the bounding box. -/
def fanOutEvent (event : EonetEvent) : List Volcano :=
  if event.geometryList.isEmpty then []
  else
    event.geometryList.filterMap fun geometry =>
      if inPhilippines geometry.lat geometry.lon then
        some (mkActivity event geometry)
      else none

/-- Lines 56-89: fan out every upstream event and sort most recent first. -/
def volcanoActivities (dp : String → Option Int) (events : List EonetEvent) :
    List Volcano :=
  sortByTimeDesc (fun v => dp v.date) (events.flatMap fanOutEvent)

/-- Line 95: `yearCounts[year] = (yearCounts[year] || 0) + 1` on a plain
object, modelled as an association list updated in place (new keys are
appended). -/
def bumpKey [DecidableEq κ] : List (κ × Nat) → κ → List (κ × Nat)
  | [], y => [(y, 1)]
  | (k, n) :: rest, y =>
    if k = y then (k, n + 1) :: rest else (k, n) :: bumpKey rest y

/-- Reading `yearCounts[y]`, with `0` for an absent key. -/
def lookupCount [DecidableEq κ] : List (κ × Nat) → κ → Nat
  | [], _ => 0
  | (k, n) :: rest, y => if k = y then n else lookupCount rest y

def sumCounts : List (κ × Nat) → Nat
  | [] => 0
  | (_, n) :: rest => n + sumCounts rest

/-- Lines 92-96: count activities by `new Date(date).getFullYear()`; the
year semantics are a parameter `getYear : String → Option Int`, with
`none` modelling the `NaN` key of an unparseable date. -/
def yearCountsOf (getYear : String → Option Int) (l : List Volcano) :
    List (Option Int × Nat) :=
  l.foldl (fun m v => bumpKey m (getYear v.date)) []

def volcanoJson (v : Volcano) : Json :=
  .jobj
    [("id", .jstr v.id),
     ("title", .jstr v.title),
     ("description", match v.description with | some s => .jstr s | none => .jnull),
     ("link", .jstr v.link),
     ("lat", .jnum (toString v.lat)),
     ("lon", .jnum (toString v.lon)),
     ("date", .jstr v.date),
     ("closed", match v.closed with | some s => .jstr s | none => .jnull),
     ("categories", .jarr (v.categories.map fun c =>
        .jobj [("id", .jstr c.id), ("title", .jstr c.title)])),
     ("sources", .jarr (v.sources.map fun s =>
        .jobj [("id", .jstr s.id), ("url", .jstr s.url)])),
     ("magnitudeValue", match v.magnitudeValue with | some q => .jnum (toString q) | none => .jnull),
     ("magnitudeUnit", match v.magnitudeUnit with | some s => .jstr s | none => .jnull)]

def countsJson (m : List (Option Int × Nat)) : Json :=
  .jobj
    (m.map fun p =>
      (match p.1 with | some y => toString y | none => "NaN", .jnum (toString p.2)))

/-- Outcome of the single EONET fetch, at the network boundary: a non-OK
response, a throw while obtaining or decoding the body (carrying
`String(err)`), or the decoded event list. -/
inductive VolcanoFetch where
  | notOk (status : Nat)
  | badBody (errStr : String)
  | okEvents (events : List EonetEvent)

def volcanoErrorBody (msg : String) : Json :=
  .jobj [("volcanoes", .jarr []), ("error", .jstr msg)]

/-- Lines 22-118: the volcanic route.  Note the non-OK branch (lines 41-50)
answers with the upstream status itself, not 500. -/
def volcanoRoute (dp getYear : String → Option Int) (f : VolcanoFetch) :
    RouteResponse :=
  match f with
  | .notOk status =>
    ⟨status, volcanoErrorBody ("API returned " ++ toString status)⟩
  | .badBody errStr => ⟨500, volcanoErrorBody errStr⟩
  | .okEvents events =>
    let sorted := volcanoActivities dp events
    ⟨200,
     .jobj
       [("volcanoes", .jarr (sorted.map volcanoJson)),
        ("yearCounts", countsJson (yearCountsOf getYear sorted))]⟩

/-- The comparator restricted to parsed timestamps: a total, transitive
order used to reason about `sortByTimeDesc` on validated batches. -/
def keyLe (key : α → Option Int) (a b : α) : Bool :=
  (key b).getD 0 ≤ (key a).getD 0

/-! ### Concrete sample data used by witnesses and counterexamples -/

def dpSample : String → Option Int := fun s =>
  if s = "2025-09-30 11:47:00" then some 100 else none

def qGood : Quake := ⟨"2025-09-30 11:47:00", 10, 125, "Bogo City", none, some 6.9, some 5⟩
def qBad : Quake := ⟨"not-a-date", 10, 125, "Bogo City", none, none, none⟩

def envStr : String := "\x7b\"quakes\":[],\"error\":\"catalog unreachable\"\x7d"
def envJson : Json := .jobj [("quakes", .jarr []), ("error", .jstr "catalog unreachable")]

def isoSample : Int → String := fun t => "1970-01-01T00:00:0" ++ toString t
def featSample : UsgsFeature :=
  ⟨some 1, some "Luzon, Philippines", some 5, none, 121, 13, 10⟩
def qSample : Quake :=
  ⟨isoSample 1, 13, 121, "Luzon, Philippines",
   some "https://earthquake.usgs.gov/", some 5, some 10⟩

def geomOut : EonetGeometry := ⟨120, 22, "2024-01-01T00:00:00Z", none, none⟩
def evOutOfBox : EonetEvent :=
  ⟨"EONET_1", "Taal Volcano", none, "", none, [], [], [geomOut]⟩
def geomIn1 : EonetGeometry := ⟨121.77, 12.88, "2024-01-01T00:00:00Z", none, none⟩
def geomIn2 : EonetGeometry := ⟨121.77, 12.88, "2024-02-01T00:00:00Z", none, none⟩
def evDupDates : EonetEvent :=
  ⟨"EONET_2", "Mayon Volcano", none, "", none, [⟨"volcanoes", "Volcanoes"⟩], [],
   [geomIn1, geomIn1]⟩
def evTwoDates : EonetEvent :=
  ⟨"EONET_3", "Mayon Volcano", none, "", none, [⟨"volcanoes", "Volcanoes"⟩], [],
   [geomIn1, geomIn2]⟩

/-! ## Theorems -/

/-! ### Generic helper lemmas -/

theorem append_ne_empty_of_left (pre s : String) (hp : pre.length ≠ 0) :
    pre ++ s ≠ "" := by
  intro h
  have hl := congrArg String.length h
  rw [String.length_append] at hl
  have h0 : ("" : String).length = 0 := rfl
  rw [h0] at hl
  omega

theorem string_append_left_cancel {a b c : String} (h : a ++ b = a ++ c) :
    b = c := by
  have hd : (a ++ b).data = (a ++ c).data := congrArg String.data h
  rw [String.data_append, String.data_append] at hd
  have := List.append_cancel_left hd
  cases b; cases c
  exact congrArg String.mk this

theorem filterMap_if_eq_map_filter {β γ : Type} (p : β → Bool) (f : β → γ) :
    ∀ l : List β,
      (l.filterMap fun g => if p g then some (f g) else none) =
        (l.filter p).map f := by
  intro l
  induction l with
  | nil => rfl
  | cons g gs ih =>
    by_cases hg : p g <;>
      simp [List.filterMap_cons, List.filter_cons, hg, ih]

/-! ### Claim C3 — trailing-years parameter handling -/

/-- Claim C3 counterexample: the code has no lower clamp.  A request with
`years=0` yields an effective value `0`, outside the claimed range `1..10`,
and a non-numeric `years=abc` yields `NaN` (no integer at all). -/
theorem c3_years_range_counterexample :
    effectiveYears (some "0") = some 0 ∧ ¬(1 ≤ (0 : Int)) ∧
    effectiveYears (some "abc") = none := by
  exact ⟨rfl, by decide, rfl⟩

/-- Claim C3 (amended): the effective trailing-years value defaults to 1
when the parameter is absent, any value above 10 is clamped to 10 rather
than erroring, and every produced value is at most 10 — but there is no
lower bound: values below 1 pass through unclamped. -/
theorem c3_years_default_and_upper_clamp :
    effectiveYears none = some 1 ∧
    effectiveYears (some "15") = some 10 ∧
    ∀ (p : Option String) (n : Int), effectiveYears p = some n → n ≤ 10 := by
  refine ⟨rfl, rfl, ?_⟩
  intro p n h
  unfold effectiveYears at h
  cases hp : jsParseInt (jsOrDefault p "1") with
  | none => rw [hp] at h; rw [Option.map_none'] at h; exact Option.noConfusion h
  | some m =>
    rw [hp] at h
    rw [Option.map_some'] at h
    cases h
    exact min_le_right m 10

theorem c3_years_default_and_upper_clamp_witness : (10 : Int) ≤ 10 :=
  c3_years_default_and_upper_clamp.2.2 (some "15") 10 (by rfl)

/-! ### Claim C2 — single-month precedence over range mode -/

/-- Claim C2 counterexample: a request that supplies both `month=0` and
`year=2024` does not get a single-month fetch — `0` is JS-falsy, so the
dispatcher falls back to the trailing-range command on the local strategy
and the sibling query carries no month, i.e. a range slice. -/
theorem c2_month_zero_counterexample :
    routeLocalCmd (some "0") (some "2024") none = [some 1] ∧
    scriptSlice (routeLocalCmd (some "0") (some "2024") none) =
      some (Slice.range (some 1)) ∧
    Slice.range (some 1) ≠ Slice.singleMonth (some 0) (some 2024) ∧
    siblingSlice (routeRemoteQuery (some "0") (some "2024") none) =
      Slice.range (some 1) := by
  exact ⟨rfl, rfl, by decide, rfl⟩

/-- Claim C2 (amended): for every request whose `month` and `year`
parameters parse to non-zero numbers (JS-truthy), both strategies request
exactly the single-month slice — the local command is `script 1 month year`
(years forced to 1, no additional trailing-range invocation) and the
remote delegate serves the single-month slice. -/
theorem c2_single_month_precedence :
    ∀ (monthP yearP yearsP : Option String) (m y : Int),
      parsedParam monthP = some m → m ≠ 0 →
      parsedParam yearP = some y → y ≠ 0 →
      routeLocalCmd monthP yearP yearsP = [some 1, some m, some y] ∧
      scriptSlice (routeLocalCmd monthP yearP yearsP) =
        some (Slice.singleMonth (some m) (some y)) ∧
      siblingSlice (routeRemoteQuery monthP yearP yearsP) =
        Slice.singleMonth (some m) (some y) := by
  intro monthP yearP yearsP m y hm hm0 hy hy0
  have hcmd : routeLocalCmd monthP yearP yearsP = [some 1, some m, some y] := by
    unfold routeLocalCmd localCmdArgs
    rw [hm, hy]
    simp [jsTruthyInt, hm0, hy0]
  refine ⟨hcmd, by rw [hcmd]; rfl, ?_⟩
  unfold routeRemoteQuery remoteQuery siblingSlice
  rw [hm, hy]
  simp [jsTruthyInt, hm0, hy0]

theorem c2_single_month_precedence_witness :
    routeLocalCmd (some "3") (some "2024") (some "10") =
      [some 1, some 3, some 2024] ∧
    scriptSlice (routeLocalCmd (some "3") (some "2024") (some "10")) =
      some (Slice.singleMonth (some 3) (some 2024)) ∧
    siblingSlice (routeRemoteQuery (some "3") (some "2024") (some "10")) =
      Slice.singleMonth (some 3) (some 2024) :=
  c2_single_month_precedence (some "3") (some "2024") (some "10") 3 2024
    rfl (by decide) rfl (by decide)

/-! ### Claim C7 — per-record timestamp validation -/

/-- Claim C7: the Normalizer/Validator is a per-record filter.  Given the
JS fact that the empty string is not a parseable date (`dp "" = none`),
the filter keeps exactly the records whose timestamp parses; the batch
length drops by exactly the number of unparseable-timestamp records; and
removing one bad record is local — the rest of the batch is unaffected, so
a bad record never errors the whole batch. -/
theorem c7_validator_per_record :
    ∀ (dp : String → Option Int), dp "" = none →
    ∀ (l : List Quake),
      validateQuakes dp l = l.filter (fun q => (dp q.datetime).isSome) ∧
      (validateQuakes dp l).length +
        l.countP (fun q => (dp q.datetime).isNone) = l.length ∧
      ∀ (l₁ l₂ : List Quake) (q : Quake), (dp q.datetime).isNone →
        validateQuakes dp (l₁ ++ q :: l₂) = validateQuakes dp (l₁ ++ l₂) := by
  intro dp hdp
  have hkeep : ∀ q : Quake, keepQuake dp q = (dp q.datetime).isSome := by
    intro q
    unfold keepQuake
    by_cases hd : q.datetime = ""
    · rw [hd, hdp]; simp
    · simp [hd]
  have h1 : ∀ l : List Quake,
      validateQuakes dp l = l.filter (fun q => (dp q.datetime).isSome) := by
    intro l
    unfold validateQuakes
    exact List.filter_congr (fun q _ => hkeep q)
  intro l
  refine ⟨h1 l, ?_, ?_⟩
  · rw [h1 l]
    induction l with
    | nil => simp
    | cons q qs ih =>
      cases hdq : dp q.datetime <;>
        simp [List.filter_cons, List.countP_cons, hdq] <;> omega
  · intro l₁ l₂ q hq
    have hfq : keepQuake dp q = false := by
      rw [hkeep q]
      simpa using hq
    unfold validateQuakes
    simp [List.filter_append, List.filter_cons, hfq]

theorem c7_validator_per_record_witness :
    (validateQuakes dpSample [qGood, qBad]).length +
      List.countP (fun q => (dpSample q.datetime).isNone) [qGood, qBad] = 2 :=
  (c7_validator_per_record dpSample rfl [qGood, qBad]).2.1

/-! ### Claim C9 — inclusive geofence bounds -/

theorem inPhilippines_out_sample : inPhilippines 22 120 = false := by
  unfold inPhilippines minLat maxLat minLon maxLon
  norm_num

theorem inPhilippines_in_sample : inPhilippines 12.88 121.77 = true := by
  unfold inPhilippines minLat maxLat minLon maxLon
  norm_num

theorem inPhilippines_geomOut : inPhilippines geomOut.lat geomOut.lon = false :=
  inPhilippines_out_sample

theorem inPhilippines_geomIn1 : inPhilippines geomIn1.lat geomIn1.lon = true :=
  inPhilippines_in_sample

theorem inPhilippines_geomIn2 : inPhilippines geomIn2.lat geomIn2.lon = true :=
  inPhilippines_in_sample

/-- Claim C9: a volcanic record survives the geofence iff its latitude lies
in `[4.5, 21.5]` and its longitude in `[116, 127]`, inclusively on all four
edges; `(22, 120)` is excluded and `(12.88, 121.77)` is included. -/
theorem c9_geofence_inclusive_bounds :
    (∀ lat lon : Rat,
      inPhilippines lat lon = true ↔
        ((4.5 : Rat) ≤ lat ∧ lat ≤ 21.5 ∧ (116 : Rat) ≤ lon ∧ lon ≤ 127)) ∧
    (∀ (e : EonetEvent) (g : EonetGeometry), g ∈ e.geometryList →
      (mkActivity e g ∈ fanOutEvent e ↔ inPhilippines g.lat g.lon = true)) ∧
    inPhilippines 22 120 = false ∧
    inPhilippines 12.88 121.77 = true := by
  refine ⟨?_, ?_, inPhilippines_out_sample, inPhilippines_in_sample⟩
  · intro lat lon
    unfold inPhilippines minLat maxLat minLon maxLon
    simp [Bool.and_eq_true, decide_eq_true_eq, and_assoc]
  · intro e g hg
    constructor
    · intro hmem
      unfold fanOutEvent at hmem
      by_cases hemp : e.geometryList.isEmpty
      · rw [if_pos hemp] at hmem
        exact absurd hmem (List.not_mem_nil _)
      · rw [if_neg hemp] at hmem
        obtain ⟨g', hg', hif⟩ := List.mem_filterMap.mp hmem
        by_cases hin : inPhilippines g'.lat g'.lon
        · rw [if_pos hin] at hif
          have heq : mkActivity e g' = mkActivity e g := Option.some.inj hif
          have hlat : g'.lat = g.lat := congrArg Volcano.lat heq
          have hlon : g'.lon = g.lon := congrArg Volcano.lon heq
          rw [← hlat, ← hlon]
          exact hin
        · rw [if_neg hin] at hif
          exact Option.noConfusion hif
    · intro hin
      unfold fanOutEvent
      have hne : ¬ e.geometryList.isEmpty = true := by
        cases hgl : e.geometryList with
        | nil => rw [hgl] at hg; exact absurd hg (List.not_mem_nil _)
        | cons a as => simp [hgl]
      rw [if_neg hne]
      exact List.mem_filterMap.mpr ⟨g, hg, by rw [if_pos hin]⟩

theorem c9_geofence_inclusive_bounds_witness :
    mkActivity evTwoDates geomIn1 ∈ fanOutEvent evTwoDates ↔
      inPhilippines geomIn1.lat geomIn1.lon = true :=
  c9_geofence_inclusive_bounds.2.1 evTwoDates geomIn1 (List.mem_cons_self _ _)

/-! ### Claim C5 — volcanic geometry fan-out -/

/-- Claim C5 counterexample: the fan-out is fused with the geofence, so an
upstream event with one out-of-region observation yields 0 records, not 1;
and two in-region observations sharing a timestamp yield colliding
`(upstreamEventId, observationTimestamp)` keys, so the keys of an event
with N observations need not be pairwise distinct. -/
theorem c5_fanout_counterexample :
    evOutOfBox.geometryList.length = 1 ∧
    (fanOutEvent evOutOfBox).length = 0 ∧
    evDupDates.geometryList.length = 2 ∧
    (fanOutEvent evDupDates).map Volcano.id =
      ["EONET_2_2024-01-01T00:00:00Z", "EONET_2_2024-01-01T00:00:00Z"] ∧
    ¬ ((fanOutEvent evDupDates).map Volcano.id).Pairwise (· ≠ ·) := by
  have hglOut : evOutOfBox.geometryList = [geomOut] := rfl
  have hfan0 : fanOutEvent evOutOfBox = [] := by
    unfold fanOutEvent
    rw [hglOut]
    simp [List.filterMap_cons, inPhilippines_geomOut]
  have hglDup : evDupDates.geometryList = [geomIn1, geomIn1] := rfl
  have hfan2 : fanOutEvent evDupDates =
      [mkActivity evDupDates geomIn1, mkActivity evDupDates geomIn1] := by
    unfold fanOutEvent
    rw [hglDup]
    simp [List.filterMap_cons, inPhilippines_geomIn1]
  have hmap : (fanOutEvent evDupDates).map Volcano.id =
      ["EONET_2_2024-01-01T00:00:00Z", "EONET_2_2024-01-01T00:00:00Z"] := by
    rw [hfan2]
    decide
  refine ⟨rfl, by rw [hfan0]; rfl, rfl, hmap, ?_⟩
  rw [hmap]
  intro h
  exact (List.pairwise_cons.mp h).1 _ (List.mem_cons_self _ _) rfl

/-- Claim C5 (amended): every geometry observation lying inside the region
bounding box yields exactly one Event record (one per in-region
observation), keyed by the composite `upstreamEventId ++ "_" ++
observationTimestamp`; the key is a pure function of those two values, so
it is stable across repeated fetches; all records copy `title` and
`categories` from the parent event; and when the in-region observation
timestamps are pairwise distinct, so are the keys. -/
theorem c5_fanout_per_observation :
    ∀ (e : EonetEvent),
      fanOutEvent e =
        (e.geometryList.filter fun g => inPhilippines g.lat g.lon).map
          (mkActivity e) ∧
      (fanOutEvent e).length =
        (e.geometryList.filter fun g => inPhilippines g.lat g.lon).length ∧
      (∀ v ∈ fanOutEvent e,
        v.id = e.id ++ "_" ++ v.date ∧
        v.title = jsStrOr (some e.title) "Unknown Volcano" ∧
        v.categories = e.categories) ∧
      (((e.geometryList.filter fun g => inPhilippines g.lat g.lon).map
          EonetGeometry.date).Pairwise (· ≠ ·) →
        ((fanOutEvent e).map Volcano.id).Pairwise (· ≠ ·)) := by
  intro e
  have h1 : fanOutEvent e =
      (e.geometryList.filter fun g => inPhilippines g.lat g.lon).map
        (mkActivity e) := by
    unfold fanOutEvent
    cases hgl : e.geometryList with
    | nil => simp
    | cons a as =>
      simp only [List.isEmpty_cons, if_false, Bool.false_eq_true]
      exact filterMap_if_eq_map_filter _ _ _
  refine ⟨h1, by rw [h1, List.length_map], ?_, ?_⟩
  · intro v hv
    rw [h1] at hv
    obtain ⟨g, hg, rfl⟩ := List.mem_map.mp hv
    exact ⟨rfl, rfl, rfl⟩
  · intro hdates
    rw [h1, List.map_map]
    rw [List.pairwise_map]
    rw [List.pairwise_map] at hdates
    refine hdates.imp ?_
    intro a b hab hid
    exact hab (string_append_left_cancel hid)

theorem c5_fanout_per_observation_witness :
    ((fanOutEvent evTwoDates).map Volcano.id).Pairwise (· ≠ ·) ∧
    (mkActivity evTwoDates geomIn1).id =
      evTwoDates.id ++ "_" ++ (mkActivity evTwoDates geomIn1).date := by
  have h := c5_fanout_per_observation evTwoDates
  have hglTwo : evTwoDates.geometryList = [geomIn1, geomIn2] := rfl
  have hfilt : evTwoDates.geometryList.filter
      (fun g => inPhilippines g.lat g.lon) = [geomIn1, geomIn2] := by
    rw [hglTwo]
    simp [List.filter_cons, inPhilippines_geomIn1, inPhilippines_geomIn2]
  have hfanTwo : fanOutEvent evTwoDates =
      [mkActivity evTwoDates geomIn1, mkActivity evTwoDates geomIn2] := by
    rw [h.1, hfilt]
    rfl
  refine ⟨h.2.2.2 ?_, (h.2.2.1 (mkActivity evTwoDates geomIn1) ?_).1⟩
  · rw [hfilt]; decide
  · rw [hfanTwo]; exact List.mem_cons_self _ _

/-! ### Claim C10 — yearCounts consistency -/

theorem lookupCount_bumpKey {κ : Type} [DecidableEq κ]
    (m : List (κ × Nat)) (y k : κ) :
    lookupCount (bumpKey m y) k =
      if y = k then lookupCount m k + 1 else lookupCount m k := by
  induction m with
  | nil =>
    by_cases h : y = k <;> simp [bumpKey, lookupCount, h]
  | cons p rest ih =>
    obtain ⟨k', n⟩ := p
    by_cases h1 : k' = y
    · subst h1
      by_cases h2 : k' = k <;> simp [bumpKey, lookupCount, h2]
    · by_cases h2 : k' = k
      · subst h2
        have hyk : ¬ y = k' := fun hh => h1 hh.symm
        simp [bumpKey, lookupCount, h1, hyk]
      · simp [bumpKey, lookupCount, h1, h2, ih]

theorem sumCounts_bumpKey {κ : Type} [DecidableEq κ]
    (m : List (κ × Nat)) (y : κ) :
    sumCounts (bumpKey m y) = sumCounts m + 1 := by
  induction m with
  | nil => rfl
  | cons p rest ih =>
    obtain ⟨k', n⟩ := p
    by_cases h : k' = y <;> simp [bumpKey, sumCounts, h, ih] <;> omega

theorem yearCountsOf_go (getYear : String → Option Int) :
    ∀ (l : List Volcano) (m : List (Option Int × Nat)),
      (∀ k, lookupCount (l.foldl (fun acc v => bumpKey acc (getYear v.date)) m) k =
        lookupCount m k + l.countP (fun v => getYear v.date == k)) ∧
      sumCounts (l.foldl (fun acc v => bumpKey acc (getYear v.date)) m) =
        sumCounts m + l.length := by
  intro l
  induction l with
  | nil => intro m; simp
  | cons v vs ih =>
    intro m
    constructor
    · intro k
      have h1 := (ih (bumpKey m (getYear v.date))).1 k
      rw [List.foldl_cons, h1, lookupCount_bumpKey]
      by_cases hk : getYear v.date = k
      · simp [List.countP_cons, hk]
        omega
      · simp [List.countP_cons, hk]
    · have h2 := (ih (bumpKey m (getYear v.date))).2
      rw [List.foldl_cons, h2, sumCounts_bumpKey]
      simp [List.length_cons]
      omega

/-- Claim C10: on every successful volcanic response, `yearCounts` is
consistent with the returned record list — each key counts exactly the
returned records whose date falls in that year (under the `getFullYear`
semantics `getYear`), and the counts sum to the length of the returned
list. -/
theorem c10_yearCounts_consistent :
    ∀ (dp getYear : String → Option Int) (events : List EonetEvent),
      (∀ k, lookupCount (yearCountsOf getYear (volcanoActivities dp events)) k =
        (volcanoActivities dp events).countP (fun v => getYear v.date == k)) ∧
      sumCounts (yearCountsOf getYear (volcanoActivities dp events)) =
        (volcanoActivities dp events).length := by
  intro dp getYear events
  have h := yearCountsOf_go getYear (volcanoActivities dp events) []
  unfold yearCountsOf
  exact ⟨fun k => by rw [(h.1 k)]; simp [lookupCount],
    by rw [h.2]; simp [sumCounts]⟩

/-! ### Claim C8 — per-year partial-failure tolerance -/

theorem fetchAllYears_eq_flatten (iso : Int → String) :
    ∀ (years : List YearFetch) (acc : List Quake),
      years.foldl
        (fun acc y =>
          match yearQuakes iso y with
          | some qs => acc ++ qs
          | none => acc) acc =
      acc ++ (years.filterMap (yearQuakes iso)).flatten := by
  intro years
  induction years with
  | nil => intro acc; simp
  | cons y ys ih =>
    intro acc
    rw [List.foldl_cons]
    cases hy : yearQuakes iso y <;>
      simp [hy, ih, List.filterMap_cons]

/-- Claim C8: in the remote seismic adapter's per-year loop, a year whose
fetch threw or returned a non-success status is skipped in isolation: the
whole fetch equals the fetch without that year, the surviving years'
results are aggregated into one concatenated list, and the route still
answers 200 — the request as a whole does not fail. -/
theorem c8_bad_year_skipped :
    ∀ (iso : Int → String) (pre post : List YearFetch) (bad : YearFetch),
      (bad = YearFetch.threw ∨ ∃ s, bad = YearFetch.notOk s) →
      fetchAllYears iso (pre ++ bad :: post) = fetchAllYears iso (pre ++ post) ∧
      fetchAllYears iso (pre ++ bad :: post) =
        fetchAllYears iso pre ++ fetchAllYears iso post ∧
      ∀ (dp : String → Option Int),
        (usgsRoute dp iso (pre ++ bad :: post)).status = 200 := by
  intro iso pre post bad hbad
  have hnone : yearQuakes iso bad = none := by
    rcases hbad with h | ⟨s, h⟩ <;> subst h <;> rfl
  have key : ∀ L, fetchAllYears iso L = (L.filterMap (yearQuakes iso)).flatten := by
    intro L
    unfold fetchAllYears
    rw [fetchAllYears_eq_flatten]
    simp
  refine ⟨?_, ?_, fun dp => rfl⟩
  · rw [key, key]
    simp [List.filterMap_append, List.filterMap_cons, hnone]
  · rw [key, key, key]
    simp [List.filterMap_append, List.filterMap_cons, hnone]

theorem c8_bad_year_skipped_witness :
    fetchAllYears isoSample
        ([YearFetch.ok (some [featSample])] ++ YearFetch.notOk 503 :: []) =
      fetchAllYears isoSample ([YearFetch.ok (some [featSample])] ++ []) ∧
    (usgsRoute (fun _ => none) isoSample
        ([YearFetch.ok (some [featSample])] ++ YearFetch.notOk 503 :: [])).status =
      200 := by
  have h := c8_bad_year_skipped isoSample [YearFetch.ok (some [featSample])] []
      (YearFetch.notOk 503) (Or.inr ⟨503, rfl⟩)
  exact ⟨h.1, h.2.2 (fun _ => none)⟩

/-! ### Claim C6 — merge/sort ordering and stability -/

theorem keyLe_trans {α : Type} (key : α → Option Int) :
    ∀ a b c, keyLe key a b → keyLe key b c → keyLe key a c := by
  intro a b c hab hbc
  simp only [keyLe, decide_eq_true_eq] at *
  omega

theorem keyLe_total {α : Type} (key : α → Option Int) :
    ∀ a b, keyLe key a b || keyLe key b a := by
  intro a b
  simp only [keyLe, Bool.or_eq_true, decide_eq_true_eq]
  omega

/-- On a batch whose timestamps all parse, the JS comparator agrees with
the total integer comparator `keyLe`, so the two sorts coincide. -/
theorem sortByTimeDesc_eq_keyLe {α : Type} (key : α → Option Int)
    (l : List α) (h : ∀ x ∈ l, (key x).isSome) :
    sortByTimeDesc key l = l.mergeSort (keyLe key) := by
  unfold sortByTimeDesc
  have hmap := @List.map_mergeSort α α
      (fun a b => jsTimeLe (key a) (key b)) (keyLe key) id l ?_
  · simpa using hmap
  · intro a ha b hb
    obtain ⟨ta, hta⟩ := Option.isSome_iff_exists.mp (h a ha)
    obtain ⟨tb, htb⟩ := Option.isSome_iff_exists.mp (h b hb)
    simp [jsTimeLe, keyLe, hta, htb]

/-- Claim C6: the shared merge/sort stage (`sortByTimeDesc`, used by both
earthquake routes and the volcanic route) emits, for every batch whose
timestamps all parse, a permutation of its input that is sorted
non-increasing by timestamp — for all indices i < j the timestamp at i is
at least the one at j — and ties between equal timestamps keep stable
input order with no further tie-break: the subsequence of any fixed
timestamp is exactly the input's. -/
theorem c6_merge_sorted_desc_stable :
    ∀ {α : Type} (key : α → Option Int) (l : List α),
      (∀ x ∈ l, (key x).isSome) →
      List.Perm (sortByTimeDesc key l) l ∧
      (∀ (i j : Nat) (hi : i < (sortByTimeDesc key l).length)
          (hj : j < (sortByTimeDesc key l).length), i < j →
        ((key ((sortByTimeDesc key l).get ⟨j, hj⟩)).getD 0) ≤
          ((key ((sortByTimeDesc key l).get ⟨i, hi⟩)).getD 0)) ∧
      (∀ t : Int,
        (sortByTimeDesc key l).filter (fun a => key a == some t) =
          l.filter (fun a => key a == some t)) := by
  intro α key l h
  have heq : sortByTimeDesc key l = l.mergeSort (keyLe key) :=
    sortByTimeDesc_eq_keyLe key l h
  have hperm : List.Perm (sortByTimeDesc key l) l := by
    rw [heq]
    exact List.mergeSort_perm l _
  refine ⟨hperm, ?_, ?_⟩
  · rw [heq]
    have hs : (l.mergeSort (keyLe key)).Pairwise (fun a b => keyLe key a b) :=
      List.sorted_mergeSort (keyLe_trans key) (keyLe_total key) l
    intro i j hi hj hij
    have hp := List.pairwise_iff_get.mp hs ⟨i, hi⟩ ⟨j, hj⟩ hij
    simpa [keyLe, decide_eq_true_eq] using hp
  · intro t
    rw [heq]
    set p : α → Bool := fun a => key a == some t with hpdef
    have hcpair : (l.filter p).Pairwise (fun a b => keyLe key a b) := by
      apply List.pairwise_of_forall_mem_list
      intro a ha b hb
      have hka : key a = some t := by
        have := List.of_mem_filter ha
        simpa [hpdef] using this
      have hkb : key b = some t := by
        have := List.of_mem_filter hb
        simpa [hpdef] using this
      simp [keyLe, hka, hkb]
    have hsub : List.Sublist (l.filter p) (l.mergeSort (keyLe key)) :=
      List.sublist_mergeSort (keyLe_trans key) (keyLe_total key) hcpair
        (List.filter_sublist l)
    have hsub2 : List.Sublist (l.filter p) ((l.mergeSort (keyLe key)).filter p) := by
      have hidem : (l.filter p).filter p = l.filter p := by
        rw [List.filter_filter]
        apply List.filter_congr
        intro x hx
        simp [Bool.and_self]
      have hstep := hsub.filter p
      rwa [hidem] at hstep
    have hlen : ((l.mergeSort (keyLe key)).filter p).length =
        (l.filter p).length := by
      rw [← List.countP_eq_length_filter, ← List.countP_eq_length_filter]
      exact (List.mergeSort_perm l (keyLe key)).countP_eq p
    exact (hsub2.eq_of_length hlen.symm).symm

theorem c6_merge_sorted_desc_stable_witness :
    List.Perm (sortByTimeDesc jsParseInt ["3", "1", "2"]) ["3", "1", "2"] ∧
    (sortByTimeDesc jsParseInt ["3", "1", "2"]).filter
        (fun a => jsParseInt a == some 2) =
      ["3", "1", "2"].filter (fun a => jsParseInt a == some 2) := by
  have h := c6_merge_sorted_desc_stable jsParseInt ["3", "1", "2"] (by decide)
  exact ⟨h.1, h.2.2 2⟩

/-! ### Claim C1 — subprocess failures never coerced to empty success -/

/-- Claim C1: for the regional adapter's captured stdout — (1) if it parses
as a JSON envelope whose `error` field is a non-empty string, the request
fails and that exact message is surfaced to the caller (as the thrown
error's message, serialized by `String(err)` as `"Error: " ++ msg` in the
500 envelope); (2) if the stdout is not valid JSON the request fails with
the tool-failure error; (3) the empty stdout is such a parse failure; and
(4) a failure response carries status 500 and the empty-list-plus-error
body, so neither case reaches the caller as a `{quakes: []}` success. -/
theorem c1_subprocess_error_propagation :
    ∀ (dpJ : Json → Option Int) (stdout : String) (j : Json) (msg : String),
      (jsParse stdout = some j →
        jsField j "error" = FieldAccess.val (Json.jstr msg) → msg ≠ "" →
        earthquakeRouteLocal dpJ stdout = failResp ("Error: " ++ msg)) ∧
      (jsParse stdout = none →
        earthquakeRouteLocal dpJ stdout = failResp msgParseFailure) ∧
      jsParse "" = none ∧
      ((failResp ("Error: " ++ msg)).status = 500 ∧
        (failResp ("Error: " ++ msg)).body =
          Json.jobj
            [("quakes", Json.jarr []),
             ("error", Json.jstr ("Error: " ++ msg))] ∧
        "Error: " ++ msg ≠ "") := by
  intro dpJ stdout j msg
  refine ⟨?_, ?_, rfl, rfl, rfl, append_ne_empty_of_left _ _ (by decide)⟩
  · intro hp herr hmsg
    unfold earthquakeRouteLocal
    rw [hp]
    show processEnvelope dpJ j = failResp ("Error: " ++ msg)
    unfold processEnvelope
    rw [herr]
    have htr : jsTruthy (Json.jstr msg) = true := by
      simp [jsTruthy, hmsg]
    simp [htr, jsStringOf]
  · intro hp
    unfold earthquakeRouteLocal
    rw [hp]

theorem c1_subprocess_error_propagation_witness :
    earthquakeRouteLocal (fun _ => none) envStr =
      failResp ("Error: " ++ "catalog unreachable") :=
  (c1_subprocess_error_propagation (fun _ => none) envStr envJson
      "catalog unreachable").1 rfl rfl (by decide)

/-! ### Claim C4 — envelope shapes and statuses -/

theorem processQuakes_shape (dpJ : Json → Option Int) (result : Json) :
    (∃ qs, processQuakes dpJ result = ⟨200, Json.jobj [("quakes", Json.jarr qs)]⟩) ∨
    (∃ e, processQuakes dpJ result = failResp e ∧ e ≠ "") := by
  unfold processQuakes
  split
  · exact Or.inr ⟨msgNullResult, rfl, by decide⟩
  · exact Or.inl ⟨_, rfl⟩
  · split
    · split
      · split
        · exact Or.inr ⟨msgNullQuake, rfl, by decide⟩
        · exact Or.inl ⟨_, rfl⟩
      · exact Or.inr ⟨msgFilterNotFunction, rfl, by decide⟩
    · exact Or.inl ⟨_, rfl⟩

theorem processEnvelope_shape (dpJ : Json → Option Int) (result : Json) :
    (∃ qs, processEnvelope dpJ result = ⟨200, Json.jobj [("quakes", Json.jarr qs)]⟩) ∨
    (∃ e, processEnvelope dpJ result = failResp e ∧ e ≠ "") := by
  unfold processEnvelope
  split
  · exact Or.inr ⟨msgNullResult, rfl, by decide⟩
  · exact processQuakes_shape dpJ result
  · rename_i e heq
    split
    · exact Or.inr ⟨"Error: " ++ jsStringOf e, rfl,
        append_ne_empty_of_left _ _ (by decide)⟩
    · exact processQuakes_shape dpJ result

/-- Claim C4 counterexample: the volcanic route's upstream-non-success
branch mirrors the upstream status (here 503) instead of answering 500 —
a failure whose status is neither 200 nor 500; and the USGS route reports
a partial result (one year failed, one succeeded) as a plain 200 success
envelope indistinguishable from full success. -/
theorem c4_envelope_counterexample :
    (volcanoRoute (fun _ => none) (fun _ => none)
        (VolcanoFetch.notOk 503)).status = 503 ∧
    ¬ ((volcanoRoute (fun _ => none) (fun _ => none)
          (VolcanoFetch.notOk 503)).status = 200 ∨
       (volcanoRoute (fun _ => none) (fun _ => none)
          (VolcanoFetch.notOk 503)).status = 500) ∧
    (usgsRoute (fun _ => none) isoSample
        [YearFetch.ok (some [featSample]), YearFetch.notOk 503]).status = 200 ∧
    (usgsRoute (fun _ => none) isoSample
        [YearFetch.ok (some [featSample]), YearFetch.notOk 503]).body =
      Json.jobj [("quakes", Json.jarr [quakeJson qSample])] := by
  have hst : (volcanoRoute (fun _ => none) (fun _ => none)
      (VolcanoFetch.notOk 503)).status = 503 := rfl
  have hfetch : fetchAllYears isoSample
      [YearFetch.ok (some [featSample]), YearFetch.notOk 503] = [qSample] := rfl
  have hbody : (usgsRoute (fun _ => none) isoSample
      [YearFetch.ok (some [featSample]), YearFetch.notOk 503]).body =
      Json.jobj [("quakes", Json.jarr [quakeJson qSample])] := by
    unfold usgsRoute sortByTimeDesc
    rw [hfetch, List.mergeSort_singleton]
    rfl
  refine ⟨hst, ?_, rfl, hbody⟩
  rw [hst]
  decide

/-- Claim C4 (amended): every modelled route execution answers one of the
documented well-formed envelope shapes — a success body carrying the full
record list, or an empty-list body with an error string.  The regional
earthquake route answers 200 on success and 500 (with a non-empty error)
on failure; the USGS route always answers 200 with a success envelope,
reporting per-year partial results as success; the volcanic route answers
200 on success and, on failure, either 500 (thrown error, `String(err)` in
the body) or the mirrored upstream status for a non-success upstream
response, with a non-empty error message in that case. -/
theorem c4_envelope_shapes :
    (∀ (dpJ : Json → Option Int) (stdout : String),
      (∃ qs, (earthquakeRouteLocal dpJ stdout).status = 200 ∧
        (earthquakeRouteLocal dpJ stdout).body =
          Json.jobj [("quakes", Json.jarr qs)]) ∨
      (∃ e, (earthquakeRouteLocal dpJ stdout).status = 500 ∧
        (earthquakeRouteLocal dpJ stdout).body =
          Json.jobj [("quakes", Json.jarr []), ("error", Json.jstr e)] ∧
        e ≠ "")) ∧
    (∀ (dp : String → Option Int) (iso : Int → String)
        (years : List YearFetch),
      (usgsRoute dp iso years).status = 200 ∧
      ∃ qs, (usgsRoute dp iso years).body =
        Json.jobj [("quakes", Json.jarr qs)]) ∧
    (∀ (dp getYear : String → Option Int) (f : VolcanoFetch),
      (∃ vs yc, (volcanoRoute dp getYear f).status = 200 ∧
        (volcanoRoute dp getYear f).body =
          Json.jobj [("volcanoes", Json.jarr vs), ("yearCounts", yc)]) ∨
      (∃ e, (volcanoRoute dp getYear f).body =
          Json.jobj [("volcanoes", Json.jarr []), ("error", Json.jstr e)] ∧
        ((volcanoRoute dp getYear f).status = 500 ∨
          ∃ s, f = VolcanoFetch.notOk s ∧
            (volcanoRoute dp getYear f).status = s ∧ e ≠ ""))) := by
  refine ⟨?_, ?_, ?_⟩
  · intro dpJ stdout
    unfold earthquakeRouteLocal
    split
    · exact Or.inr ⟨msgParseFailure, rfl, rfl, by decide⟩
    · rename_i result heq
      rcases processEnvelope_shape dpJ result with ⟨qs, hq⟩ | ⟨e, he, hne⟩
      · exact Or.inl ⟨qs, by rw [hq], by rw [hq]⟩
      · exact Or.inr ⟨e, by rw [he]; rfl, by rw [he]; rfl, hne⟩
  · intro dp iso years
    exact ⟨rfl, ⟨_, rfl⟩⟩
  · intro dp getYear f
    cases f with
    | notOk s =>
      exact Or.inr ⟨"API returned " ++ toString s, rfl,
        Or.inr ⟨s, rfl, rfl, append_ne_empty_of_left _ _ (by decide)⟩⟩
    | badBody e => exact Or.inr ⟨e, rfl, Or.inl rfl⟩
    | okEvents events => exact Or.inl ⟨_, _, rfl, rfl⟩

end SafePh
